import Mathlib

/-!
Verification of the `entire` CLI session recorder core against its
natural-language specification.

The development shallowly embeds the relevant Go functions:

* `sessionid` package (`EntireSessionID`, `ModelSessionID`) — from source.
* checkpoint-id prefix resolution in `runExplainCheckpoint` — from source
  (`explain.go`).
* `reset` command guard (`hasActiveSessionsOnCurrentHead`, bulk reset flow)
  — from source (`reset.go`, `manual_commit_reset.go`).
* orphan detection, `WriteTemporary` deduplication, `WriteCommitted`
  metadata construction, session archival and the concurrent-session gate —
  modelled from the specification, since only their tests and callers are
  part of the excerpt.

Strings are modelled with Lean `String`; Go byte indexing coincides with
character indexing on the ASCII data these functions process.
-/

namespace Entire

/-- Embeds `sessionid.EntireSessionID` (source): the identity function —
the agent session id is the Entire session id. -/
def EntireSessionID (agentSessionUUID : String) : String :=
  agentSessionUUID

/-- The legacy date-prefix test used by `sessionid.ModelSessionID` (source):
length greater than 11 and a dash at indices 4, 7 and 10. -/
def IsLegacySessionID (s : String) : Prop :=
  11 < s.data.length ∧ s.data.get? 4 = some '-' ∧
    s.data.get? 7 = some '-' ∧ s.data.get? 10 = some '-'

instance (s : String) : Decidable (IsLegacySessionID s) := by
  unfold IsLegacySessionID; infer_instance

/-- Embeds `sessionid.ModelSessionID` (source): strips a legacy
`YYYY-MM-DD-` date prefix when present, otherwise returns the input. -/
def ModelSessionID (s : String) : String :=
  if IsLegacySessionID s then ⟨s.data.drop 11⟩ else s

/-- Go `strings.HasPrefix`, on the character data of the strings. -/
def strHasPref (p s : String) : Bool :=
  p.data.isPrefixOf s.data

/-- One entry of `ListCommitted`; only the checkpoint id takes part in the
prefix resolution of `runExplainCheckpoint` (`explain.go`). -/
structure CheckpointInfo where
  checkpointID : String
deriving DecidableEq

/-- Embeds the scanning loop of `runExplainCheckpoint` (`explain.go`):
`fullCheckpointID` starts empty and is set to the id of the first entry the
requested prefix matches, leaving the loop at once. -/
def findFirstCheckpointMatch : List CheckpointInfo → String → String
  | [], _ => ""
  | info :: rest, p =>
    if strHasPref p info.checkpointID then info.checkpointID
    else findFirstCheckpointMatch rest p

/-- Embeds the resolution step of `runExplainCheckpoint` (`explain.go`):
after the scan, an empty `fullCheckpointID` becomes the error
`checkpoint not found` (here `none`); otherwise the id found is used. -/
def resolveCheckpointID (committed : List CheckpointInfo) (p : String) :
    Option String :=
  let fullID := findFirstCheckpointMatch committed p
  if fullID = "" then none else some fullID

/-- Session lifecycle phase (spec §3 data model, values as in the source
constants). -/
inductive Phase where
  | ACTIVE
  | ACTIVE_COMMITTED
  | ENDED
  | ORPHANED
deriving DecidableEq

/-- Modelled from the spec: `session.Phase.IsActive` (the `session` package
body is not part of the excerpt; `reset.go` and §4.4 use it). A phase is
active iff it is `ACTIVE` or `ACTIVE_COMMITTED`. -/
def Phase.IsActive : Phase → Bool
  | .ACTIVE => true
  | .ACTIVE_COMMITTED => true
  | _ => false

/-- Per-session on-disk state (spec §3 data model; the fields used by the
source fragments and tests). `startedAt` is in seconds. -/
structure SessionState where
  sessionID : String
  agentType : String
  baseCommit : String
  startedAt : Nat
  checkpointCount : Nat
  concurrentWarningShown : Bool
  phase : Phase
deriving DecidableEq

/-- The orphan grace period: one hour, in seconds (spec §4.4, default). -/
def OrphanGracePeriod : Nat := 3600

/-- A shadow branch name (`entire/<hash>`) matches a session's base commit
when the hash after the 7-character `entire/` marker equals the first 7
characters of the base commit (spec §4.4 condition (c)). -/
def shadowBranchMatchesBase (branch baseCommit : String) : Bool :=
  decide (branch.data.drop 7 = baseCommit.data.take 7)

/-- Modelled from the spec: the orphan test of
`session.ListOrphanedSessionStates` for the manual-commit strategy (§4.4):
orphaned iff the grace period has elapsed since `started_at`, the phase is
active, and no shadow branch matches the base commit by 7-character
prefix. -/
def IsOrphaned (now : Nat) (shadowBranches : List String)
    (s : SessionState) : Bool :=
  decide (OrphanGracePeriod < now - s.startedAt) &&
    s.phase.IsActive &&
    !(shadowBranches.any (fun b => shadowBranchMatchesBase b s.baseCommit))

/-- Modelled from the spec: `session.ListOrphanedSessionStates` (§4.4):
load all states and keep exactly the orphaned ones. -/
def ListOrphanedSessionStates (now : Nat) (shadowBranches : List String)
    (states : List SessionState) : List SessionState :=
  states.filter (IsOrphaned now shadowBranches)

/-- The session store plus the ref store, the mutable state the `reset`
command acts on. -/
structure RepoState where
  sessionStates : List SessionState
  refStore : List String
deriving DecidableEq

/-- Embeds `hasActiveSessionsOnCurrentHead` (`reset.go`): a session counts
when its `base_commit` equals the current HEAD hash (full-string equality)
and its phase is active. -/
def hasActiveSessionsOnCurrentHead (states : List SessionState)
    (currentHead : String) : Bool :=
  states.any (fun s => decide (s.baseCommit = currentHead) && s.phase.IsActive)

/-- Modelled from the spec: `getShadowBranchNameForCommit` (§4.3 step 5,
§6 refs): `entire/<hash7>` for the main worktree, with a `-<worktree-id>`
suffix otherwise. -/
def getShadowBranchNameForCommit (commit worktreeID : String) : String :=
  if worktreeID = "main" then "entire/" ++ ⟨commit.data.take 7⟩
  else "entire/" ++ ⟨commit.data.take 7⟩ ++ "-" ++ worktreeID

/-- Modelled from the spec: `findSessionsForCommit` (§4.5 manual-commit
reset): a session belongs to a commit when the first 7 characters of its
`base_commit` match the commit's. -/
def sessionMatchesCommit (s : SessionState) (commit : String) : Bool :=
  decide (s.baseCommit.data.take 7 = commit.data.take 7)

/-- Embeds `ManualCommitStrategy.Reset` (`manual_commit_reset.go`), the
destructive part reached after all confirmations: when the shadow branch
for HEAD exists, clear every session state of this commit and delete the
shadow branch ref; when it does not exist, report and change nothing. -/
def ManualCommitReset (r : RepoState) (head worktreeID : String) : RepoState :=
  let shadow := getShadowBranchNameForCommit head worktreeID
  if shadow ∈ r.refStore then
    { sessionStates := r.sessionStates.filter
        (fun s => !(sessionMatchesCommit s head)),
      refStore := r.refStore.filter (fun b => decide (b ≠ shadow)) }
  else r

/-- Embeds the `RunE` body of `newResetCmd` (`reset.go`) for the bulk path
(no `--session` flag): without `--force`, an active session on the current
HEAD prints a notice and returns success before the confirmation prompt;
an unconfirmed prompt also returns success; otherwise the strategy reset
runs. The Bool result is command success (a `nil` error). -/
def runResetBulk (r : RepoState) (head worktreeID : String)
    (force confirmed : Bool) : RepoState × Bool :=
  if !force && hasActiveSessionsOnCurrentHead r.sessionStates head then
    (r, true)
  else if !force && !confirmed then
    (r, true)
  else
    (ManualCommitReset r head worktreeID, true)

/-- One commit on a shadow branch, abstracted to its commit hash and the
hash of its snapshot tree. -/
structure ShadowCommit where
  hash : Nat
  treeHash : Nat
deriving DecidableEq

/-- The shadow branch of one base commit: the base commit's hashes plus
the checkpoint commits, newest first; the ref points at the head of
`commits` (or at the base commit when `commits` is empty, the
first-checkpoint case). -/
structure ShadowBranchState where
  baseCommitHash : Nat
  baseTreeHash : Nat
  commits : List ShadowCommit
deriving DecidableEq

/-- The previous shadow-branch tip as `(commit hash, tree hash)`: the last
checkpoint commit, or the base commit on the first checkpoint
(spec §4.3 `WriteTemporary` step 3). -/
def shadowTip (b : ShadowBranchState) : Nat × Nat :=
  match b.commits with
  | [] => (b.baseCommitHash, b.baseTreeHash)
  | c :: _ => (c.hash, c.treeHash)

/-- The result of `WriteTemporary` (spec §4.3). -/
structure WriteResult where
  commitHash : Nat
  skipped : Bool
deriving DecidableEq

/-- Modelled from the spec: `GitStore.WriteTemporary` (§4.3 steps 3-5; the
store body is not part of the excerpt, its tests are): with the tree hash
`newTreeHash` of the freshly built snapshot, if it equals the tree hash of
the previous tip the previous commit hash is returned with `skipped` and
nothing is written; otherwise a commit with hash `newCommitHash` parented
on the previous tip is created and the shadow branch ref advanced. -/
def WriteTemporary (b : ShadowBranchState) (newTreeHash newCommitHash : Nat) :
    ShadowBranchState × WriteResult :=
  let prev := shadowTip b
  if newTreeHash = prev.2 then
    (b, ⟨prev.1, true⟩)
  else
    ({ b with commits := ⟨newCommitHash, newTreeHash⟩ :: b.commits },
      ⟨newCommitHash, false⟩)

/-- Successive commits on a shadow branch have pairwise different tree
hashes, and the oldest checkpoint differs from the base commit's tree
(spec §3 invariant 5). -/
def SuccessiveTreesDistinct (b : ShadowBranchState) : Prop :=
  List.Chain' (fun c d => c.treeHash ≠ d.treeHash) b.commits ∧
    ∀ oldest ∈ b.commits.getLast?, oldest.treeHash ≠ b.baseTreeHash

/-- A key `k` names a direct child of the sharded directory `basePath`
(spec §4.3 `WriteCommitted` step 3: the key is exactly
`basePath ++ filename` with no further directory separator). -/
def isDirectChildOf (basePath k : String) : Bool :=
  basePath.data.isPrefixOf k.data &&
    !((k.data.drop basePath.data.length).contains '/')

/-- Where archival moves a direct child of `basePath`: into the numeric
subdirectory named by the existing session count
(spec §4.3 `WriteCommitted` step 3). -/
def archiveKey (basePath : String) (n : Nat) (k : String) : String :=
  ⟨basePath.data ++ (Nat.repr n).data ++ '/' :: k.data.drop basePath.data.length⟩

/-- Modelled from the spec: `GitStore.archiveExistingSession` (§4.3
`WriteCommitted` step 3; the store body is not part of the excerpt, its
test is): every tree entry whose key is exactly `basePath/<filename>` —
the transcript chunk family included — moves to
`basePath/<session count>/<filename>`; all other entries stay. Entries are
the metadata-branch tree flattened to key-to-blob pairs. -/
def archiveExistingSession (basePath : String) (sessionCount : Nat)
    (entries : List (String × Nat)) : List (String × Nat) :=
  entries.map (fun e =>
    if isDirectChildOf basePath e.1 then
      (archiveKey basePath sessionCount e.1, e.2)
    else e)

/-- The `metadata.json` fields the multi-session logic touches (spec §3
`CommittedMetadata` schema). `agents = []` renders the omitted `agents[]`
field of the single-session convention. -/
structure CommittedMetadata where
  agent : String
  agents : List String
  sessionCount : Nat
deriving DecidableEq

/-- The agent list an existing `metadata.json` stands for: the `agents[]`
field when present, else the singleton of `agent` (single-session
convention, spec §4.3 `WriteCommitted` step 5). -/
def effectiveAgents (m : CommittedMetadata) : List String :=
  if m.agents = [] then [m.agent] else m.agents

/-- Append an agent only when it is not already present, preserving
first-insertion order (spec §3 invariant 7). -/
def dedupAppend (l : List String) (a : String) : List String :=
  if a ∈ l then l else l ++ [a]

/-- Modelled from the spec: the `metadata.json` construction of
`GitStore.WriteCommitted` (§4.3 step 5; the store body is not part of the
excerpt, its tests are): first write gets `session_count = 1` and an
omitted `agents[]`; a merge bumps `session_count`, appends the new agent
with deduplication, and keeps `agent = agents[0]`. -/
def buildCommittedMetadata (existing : Option CommittedMetadata)
    (newAgent : String) : CommittedMetadata :=
  match existing with
  | none => { agent := newAgent, agents := [], sessionCount := 1 }
  | some m =>
    let ags := dedupAppend (effectiveAgents m) newAgent
    { agent := ags.headD newAgent, agents := ags,
      sessionCount := m.sessionCount + 1 }

/-- A hook decision: empty passthrough, or one of the two agent-specific
blocking JSON shapes (spec §4.5). -/
inductive HookResponse where
  | passthrough
  | claudeBlock (stopReason : String)
  | geminiBlock (reason : String)
deriving DecidableEq

/-- The agent whose response encoder serializes the hook decision. -/
inductive CurrentAgent where
  | claude
  | gemini
deriving DecidableEq

/-- Modelled from the spec: the resume command embedded in a blocking
reason (§4.5 concurrent-session resume command rule): chosen by the
conflicting session's `agent_type`, over the normalized session id. -/
def resumeCommand (agentType sessionID : String) : String :=
  if agentType = "Claude Code" then
    "claude -r " ++ ModelSessionID sessionID
  else if agentType = "Gemini CLI" then
    "close Gemini CLI, then run: " ++
      ("gemini --resume " ++ ModelSessionID sessionID)
  else ""

/-- The fixed introduction of every blocking reason (the integration tests
check for this fragment). -/
def blockIntro : String :=
  "another active session with uncommitted changes is using this commit. To continue it: "

/-- The blocking reason shown for a conflicting session (spec §4.5; the
integration tests check the quoted fragment and the resume command). -/
def blockReason (conflicting : SessionState) : String :=
  blockIntro ++ resumeCommand conflicting.agentType conflicting.sessionID

/-- A session conflicts with the current one (spec §4.5 manual-commit
gate step 1): same first 7 characters of `base_commit` as HEAD, a
different session id, and at least one checkpoint. -/
def isConflicting (self : SessionState) (head : String)
    (other : SessionState) : Bool :=
  decide (other.baseCommit.data.take 7 = head.data.take 7) &&
    decide (other.sessionID ≠ self.sessionID) &&
    decide (0 < other.checkpointCount)

/-- Modelled from the spec: the concurrent-session gate (§4.5 manual-commit
step 1; only its integration tests are part of the excerpt): with the
warning not yet shown and a conflicting session present, emit the blocking
response in the current agent's shape, its reason built from the
conflicting session; otherwise pass through. -/
def concurrentSessionGate (current : CurrentAgent) (self : SessionState)
    (states : List SessionState) (head : String) : HookResponse :=
  if self.concurrentWarningShown then .passthrough
  else
    match states.find? (isConflicting self head) with
    | none => .passthrough
    | some c =>
      match current with
      | .claude => .claudeBlock (blockReason c)
      | .gemini => .geminiBlock (blockReason c)

/-! Concrete fixtures, used to instantiate the theorems below. -/

/-- A 40-character commit hash used as HEAD in the fixtures. -/
def headFixture : String := "0123456789abcdef0123456789abcdef01234567"

/-- A session in phase `ACTIVE` whose `base_commit` is `headFixture`,
started at second 1000. -/
def stateActiveOnHead : SessionState :=
  { sessionID := "f736da47-b2ca-4f86-bb32-a1bbe582e464"
    agentType := "Claude Code"
    baseCommit := headFixture
    startedAt := 1000
    checkpointCount := 1
    concurrentWarningShown := false
    phase := .ACTIVE }

/-- The current session of the concurrent-gate fixture: a fresh Gemini
session without checkpoints on `headFixture`. -/
def gateSelfFixture : SessionState :=
  { sessionID := "bbbbbbbb-0000-0000-0000-000000000000"
    agentType := "Gemini CLI"
    baseCommit := headFixture
    startedAt := 2000
    checkpointCount := 0
    concurrentWarningShown := false
    phase := .ACTIVE }

/-- The conflicting session of the concurrent-gate fixture: a Claude Code
session with one checkpoint on the same 7-character commit short hash. -/
def gateConflictFixture : SessionState :=
  { sessionID := "2026-01-23-f736da47-b2ca-4f86-bb32-a1bbe582e464"
    agentType := "Claude Code"
    baseCommit := "0123456ffffffffffffffffffffffffffffffff0"
    startedAt := 1000
    checkpointCount := 1
    concurrentWarningShown := false
    phase := .ACTIVE_COMMITTED }

/-- The sharded base path of the archival fixture. -/
def archiveBasePath : String := "a1/b2c3d4e5f6/"

/-- The metadata-branch entries of the archival fixture: a checkpoint with
a three-chunk transcript plus one entry outside the sharded path. -/
def archiveEntriesFixture : List (String × Nat) :=
  [("a1/b2c3d4e5f6/metadata.json", 1),
   ("a1/b2c3d4e5f6/full.jsonl", 2),
   ("a1/b2c3d4e5f6/full.jsonl.001", 3),
   ("a1/b2c3d4e5f6/full.jsonl.002", 4),
   ("a1/b2c3d4e5f6/prompt.txt", 5),
   ("a1/b2c3d4e5f6/context.md", 6),
   ("a1/b2c3d4e5f6/content_hash", 7),
   ("zz/other0000/metadata.json", 8)]

/-! Theorems. -/

/-- C6: session-id normalization (`ModelSessionID`) returns `s[11:]`
exactly when `len(s) > 11` and the characters at indices 4, 7 and 10 are
all dashes, and returns `s` unchanged otherwise; in particular the legacy
id `2026-01-23-f736da47-b2ca-4f86-bb32-a1bbe582e464` maps to
`f736da47-b2ca-4f86-bb32-a1bbe582e464` while `2026-01-23` (length 10) is
returned unchanged. -/
theorem modelSessionID_correct (s : String) :
    (11 < s.data.length ∧ s.data.get? 4 = some '-' ∧
        s.data.get? 7 = some '-' ∧ s.data.get? 10 = some '-' →
      ModelSessionID s = ⟨s.data.drop 11⟩) ∧
    (¬(11 < s.data.length ∧ s.data.get? 4 = some '-' ∧
        s.data.get? 7 = some '-' ∧ s.data.get? 10 = some '-') →
      ModelSessionID s = s) ∧
    ModelSessionID "2026-01-23-f736da47-b2ca-4f86-bb32-a1bbe582e464" =
      "f736da47-b2ca-4f86-bb32-a1bbe582e464" ∧
    ModelSessionID "2026-01-23" = "2026-01-23" :=
  ⟨fun h => if_pos h, fun h => if_neg h, by decide, by decide⟩

/-- Witness for C6, at the legacy id `2026-01-23-abc123` and the short id
`abc123`. -/
theorem modelSessionID_correct_witness :
    ModelSessionID "2026-01-23-abc123" =
      ⟨("2026-01-23-abc123" : String).data.drop 11⟩ ∧
    ModelSessionID "abc123" = "abc123" :=
  ⟨(modelSessionID_correct "2026-01-23-abc123").1 (by decide),
   (modelSessionID_correct "abc123").2.1 (by decide)⟩

/-- Counterexample to C5 as stated: the round trip is not the identity on
all strings — a legacy date-prefixed id is stripped — and `ModelSessionID`
is not idempotent — a doubly date-prefixed id is stripped twice. -/
theorem sessionID_roundtrip_cex :
    ModelSessionID (EntireSessionID "2026-01-23-abc123") ≠
      "2026-01-23-abc123" ∧
    ModelSessionID (ModelSessionID "2026-01-23-2026-01-23-x") ≠
      ModelSessionID "2026-01-23-2026-01-23-x" := by
  decide

/-- C5 (amended): `ModelSessionID (EntireSessionID u) = u` for every `u`
that is not of the legacy date-prefixed shape, and
`ModelSessionID (ModelSessionID s) = ModelSessionID s` for every `s` whose
normalized form is not of that shape. -/
theorem sessionID_roundtrip_amended (u s : String) :
    (¬ IsLegacySessionID u → ModelSessionID (EntireSessionID u) = u) ∧
    (¬ IsLegacySessionID (ModelSessionID s) →
      ModelSessionID (ModelSessionID s) = ModelSessionID s) :=
  ⟨fun h => if_neg h, fun h => if_neg h⟩

/-- Witness for C5 (amended), at the plain id `abc123` and the legacy id
`2026-01-23-abc123`. -/
theorem sessionID_roundtrip_amended_witness :
    ModelSessionID (EntireSessionID "abc123") = "abc123" ∧
    ModelSessionID (ModelSessionID "2026-01-23-abc123") =
      ModelSessionID "2026-01-23-abc123" :=
  ⟨(sessionID_roundtrip_amended "abc123" "x").1 (by decide),
   (sessionID_roundtrip_amended "x" "2026-01-23-abc123").2 (by decide)⟩

theorem findFirstCheckpointMatch_eq_empty (l : List CheckpointInfo)
    (p : String) (h : ∀ info ∈ l, strHasPref p info.checkpointID = false) :
    findFirstCheckpointMatch l p = "" := by
  induction l with
  | nil => rfl
  | cons info rest ih =>
    have h0 := h info (List.mem_cons_self info rest)
    simp only [findFirstCheckpointMatch, h0, Bool.false_eq_true, if_false]
    exact ih fun i hi => h i (List.mem_cons_of_mem info hi)

theorem findFirstCheckpointMatch_mem (l : List CheckpointInfo) (p : String) :
    findFirstCheckpointMatch l p = "" ∨
      (strHasPref p (findFirstCheckpointMatch l p) = true ∧
        ∃ info ∈ l, info.checkpointID = findFirstCheckpointMatch l p) := by
  induction l with
  | nil => exact Or.inl rfl
  | cons info rest ih =>
    by_cases h : strHasPref p info.checkpointID = true
    · have heq : findFirstCheckpointMatch (info :: rest) p =
          info.checkpointID := by
        simp [findFirstCheckpointMatch, h]
      rw [heq]
      exact Or.inr ⟨h, info, List.mem_cons_self info rest, rfl⟩
    · have h0 : strHasPref p info.checkpointID = false :=
        Bool.eq_false_iff.mpr h
      simp only [findFirstCheckpointMatch, h0, Bool.false_eq_true, if_false]
      rcases ih with hl | ⟨hp, i, hi, hid⟩
      · exact Or.inl hl
      · exact Or.inr ⟨hp, i, List.mem_cons_of_mem info hi, hid⟩

theorem findFirstCheckpointMatch_first (pre : List CheckpointInfo)
    (info : CheckpointInfo) (rest : List CheckpointInfo) (p : String)
    (hpre : ∀ i ∈ pre, strHasPref p i.checkpointID = false)
    (hm : strHasPref p info.checkpointID = true) :
    findFirstCheckpointMatch (pre ++ info :: rest) p = info.checkpointID := by
  induction pre with
  | nil => simp [findFirstCheckpointMatch, hm]
  | cons x xs ih =>
    have h0 := hpre x (List.mem_cons_self x xs)
    simp only [List.cons_append, findFirstCheckpointMatch, h0,
      Bool.false_eq_true, if_false]
    exact ih fun i hi => hpre i (List.mem_cons_of_mem x hi)

/-- Counterexample to C4 as stated: two committed checkpoints with
distinct ids share the prefix `abc`, yet the resolution of
`runExplainCheckpoint` reports no ambiguity and silently returns the
first of them. -/
theorem resolveCheckpointID_cex :
    strHasPref "abc" "abc111000000" = true ∧
    strHasPref "abc" "abc222000000" = true ∧
    ("abc111000000" : String) ≠ "abc222000000" ∧
    resolveCheckpointID [⟨"abc111000000"⟩, ⟨"abc222000000"⟩] "abc" =
      some "abc111000000" := by
  decide

/-- C4 (amended): resolving a checkpoint-id prefix scans `ListCommitted`
in order and returns the first checkpoint whose id has the prefix — even
when several match, with no ambiguity error — and reports not-found
exactly when the scan produces no (non-empty) id. -/
theorem resolveCheckpointID_amended (l : List CheckpointInfo) (p : String) :
    ((∀ info ∈ l, strHasPref p info.checkpointID = false) →
      resolveCheckpointID l p = none) ∧
    (∀ cid, resolveCheckpointID l p = some cid →
      strHasPref p cid = true ∧ ∃ info ∈ l, info.checkpointID = cid) ∧
    (∀ pre info rest, l = pre ++ info :: rest →
      (∀ i ∈ pre, strHasPref p i.checkpointID = false) →
      strHasPref p info.checkpointID = true →
      info.checkpointID ≠ "" →
      resolveCheckpointID l p = some info.checkpointID) := by
  refine ⟨fun h => ?_, fun cid h => ?_, fun pre info rest hl hpre hm hne => ?_⟩
  · unfold resolveCheckpointID
    simp [findFirstCheckpointMatch_eq_empty l p h]
  · unfold resolveCheckpointID at h
    rcases findFirstCheckpointMatch_mem l p with h0 | ⟨hp, i, hi, hid⟩
    · simp [h0] at h
    · by_cases he : findFirstCheckpointMatch l p = ""
      · simp [he] at h
      · simp only [he, if_false] at h
        cases h
        exact ⟨hp, i, hi, hid⟩
  · subst hl
    unfold resolveCheckpointID
    rw [findFirstCheckpointMatch_first pre info rest p hpre hm]
    simp [hne]

/-- Witness for C4 (amended): a later entry is found when the earlier one
does not match, and an unmatched prefix reports not-found. -/
theorem resolveCheckpointID_amended_witness :
    resolveCheckpointID [⟨"abc111000000"⟩, ⟨"def222000000"⟩] "def" =
      some "def222000000" ∧
    resolveCheckpointID [⟨"abc111000000"⟩] "zzz" = none :=
  ⟨(resolveCheckpointID_amended [⟨"abc111000000"⟩, ⟨"def222000000"⟩]
      "def").2.2 [⟨"abc111000000"⟩] ⟨"def222000000"⟩ [] rfl (by decide)
      (by decide) (by decide),
   (resolveCheckpointID_amended [⟨"abc111000000"⟩] "zzz").1 (by decide)⟩

theorem phase_isActive_iff (p : Phase) :
    p.IsActive = true ↔ (p = .ACTIVE ∨ p = .ACTIVE_COMMITTED) := by
  cases p <;> simp [Phase.IsActive]

/-- C1: a session whose base commit is covered by a shadow branch — the
branch's hash after `entire/` equals the first 7 characters of the
40-character `base_commit` — is never listed as orphaned: the comparison
is a 7-character prefix match, not full-string equality. -/
theorem listOrphaned_prefix_match (now : Nat) (branches : List String)
    (states : List SessionState) (s : SessionState) (h7 : String)
    (hb : ("entire/" ++ h7) ∈ branches)
    (hh : h7.data = s.baseCommit.data.take 7) :
    s ∉ ListOrphanedSessionStates now branches states := by
  intro hmem
  have horph := (List.mem_filter.mp hmem).2
  have hdrop : ("entire/" ++ h7).data.drop 7 = h7.data := by
    rw [String.data_append]
    have hlen : ("entire/" : String).data.length = 7 := by decide
    rw [← hlen]
    exact List.drop_left _ _
  have hmatch :
      shadowBranchMatchesBase ("entire/" ++ h7) s.baseCommit = true := by
    unfold shadowBranchMatchesBase
    rw [hdrop, hh]
    simp
  have hany :
      branches.any (fun b => shadowBranchMatchesBase b s.baseCommit) =
        true :=
    List.any_eq_true.mpr ⟨_, hb, hmatch⟩
  unfold IsOrphaned at horph
  rw [hany] at horph
  simp at horph

/-- Witness for C1: a session on `headFixture` with the shadow branch
`entire/0123456` in the ref store is not orphaned even long after the
grace period. -/
theorem listOrphaned_prefix_match_witness :
    stateActiveOnHead ∉ ListOrphanedSessionStates 999999
      ["entire/0123456"] [stateActiveOnHead] :=
  listOrphaned_prefix_match 999999 ["entire/0123456"] [stateActiveOnHead]
    stateActiveOnHead "0123456" (by decide) (by decide)

/-- C2: `ListOrphaned` reports a session only when every one of the three
conditions holds — no shadow branch matches its base commit, the orphan
grace period has elapsed since `started_at`, and its phase is `ACTIVE` or
`ACTIVE_COMMITTED` — and a session started within the grace period is
never reported, whatever its checkpoint count or shadow branch. -/
theorem listOrphaned_conditions (now : Nat) (branches : List String)
    (states : List SessionState) (s : SessionState) :
    (s ∈ ListOrphanedSessionStates now branches states →
      (∀ b ∈ branches, shadowBranchMatchesBase b s.baseCommit = false) ∧
      OrphanGracePeriod < now - s.startedAt ∧
      (s.phase = .ACTIVE ∨ s.phase = .ACTIVE_COMMITTED)) ∧
    (now - s.startedAt ≤ OrphanGracePeriod →
      s ∉ ListOrphanedSessionStates now branches states) := by
  constructor
  · intro hmem
    have horph := (List.mem_filter.mp hmem).2
    unfold IsOrphaned at horph
    rw [Bool.and_eq_true, Bool.and_eq_true] at horph
    obtain ⟨⟨hgrace, hact⟩, hno⟩ := horph
    rw [Bool.not_eq_true'] at hno
    refine ⟨?_, of_decide_eq_true hgrace,
      (phase_isActive_iff s.phase).mp hact⟩
    intro b hbb
    simp only [List.any_eq_false] at hno
    simpa using hno b hbb
  · intro hle hmem
    have horph := (List.mem_filter.mp hmem).2
    unfold IsOrphaned at horph
    rw [Bool.and_eq_true, Bool.and_eq_true] at horph
    have := of_decide_eq_true horph.1.1
    unfold OrphanGracePeriod at this hle
    omega

/-- Witness for C2: a session started 3000 seconds ago — inside the grace
period — is not orphaned although it has no shadow branch. -/
theorem listOrphaned_conditions_witness :
    stateActiveOnHead ∉
      ListOrphanedSessionStates 4000 [] [stateActiveOnHead] :=
  (listOrphaned_conditions 4000 [] [stateActiveOnHead]
    stateActiveOnHead).2 (by decide)

/-- C10: `reset` without `--force` and without `--session`, in the
presence of a session state whose `base_commit` equals the current HEAD
and whose phase is active, returns success while deleting nothing — it
stops with a notice before the confirmation prompt, leaving the session
store and the ref store unchanged. -/
theorem resetGuard_activeSessions (r : RepoState) (head worktreeID : String)
    (confirmed : Bool)
    (h : ∃ s ∈ r.sessionStates, s.baseCommit = head ∧
      s.phase.IsActive = true) :
    runResetBulk r head worktreeID false confirmed = (r, true) := by
  have hA : hasActiveSessionsOnCurrentHead r.sessionStates head = true := by
    rcases h with ⟨s, hs, h1, h2⟩
    refine List.any_eq_true.mpr ⟨s, hs, ?_⟩
    rw [Bool.and_eq_true]
    exact ⟨decide_eq_true h1, h2⟩
  unfold runResetBulk
  simp [hA]

/-- Witness for C10: with an `ACTIVE` session on `headFixture` and the
shadow branch present, the guarded reset leaves the whole state intact and
succeeds, confirmation notwithstanding. -/
theorem resetGuard_activeSessions_witness :
    runResetBulk ⟨[stateActiveOnHead], ["entire/0123456"]⟩ headFixture
      "main" false true =
      (⟨[stateActiveOnHead], ["entire/0123456"]⟩, true) :=
  resetGuard_activeSessions ⟨[stateActiveOnHead], ["entire/0123456"]⟩
    headFixture "main" true
    ⟨stateActiveOnHead, by decide, by decide, by decide⟩

/-- C3: `WriteTemporary` skips when the new snapshot's tree hash equals
the tree hash of the previous shadow-branch tip (the base commit on the
first checkpoint), returning the previous commit hash with `skipped` and
leaving the branch unchanged; otherwise it extends the branch and returns
the fresh commit hash, not skipped and distinct from the previous tip; as
a consequence successive commits always differ in tree hash. -/
theorem writeTemporary_dedup (b : ShadowBranchState) (t h : Nat) :
    (t = (shadowTip b).2 →
      WriteTemporary b t h = (b, ⟨(shadowTip b).1, true⟩)) ∧
    (t ≠ (shadowTip b).2 →
      (WriteTemporary b t h).1.commits = ⟨h, t⟩ :: b.commits ∧
      (WriteTemporary b t h).2 = ⟨h, false⟩ ∧
      (h ≠ (shadowTip b).1 →
        (WriteTemporary b t h).2.commitHash ≠ (shadowTip b).1)) ∧
    (SuccessiveTreesDistinct b →
      SuccessiveTreesDistinct (WriteTemporary b t h).1) := by
  refine ⟨fun heq => ?_, fun hne => ?_, fun hinv => ?_⟩
  · unfold WriteTemporary
    simp [heq]
  · unfold WriteTemporary
    simp only [hne, if_false]
    exact ⟨trivial, trivial, fun hf => hf⟩
  · by_cases heq : t = (shadowTip b).2
    · unfold WriteTemporary
      simpa [heq] using hinv
    · unfold WriteTemporary
      simp only [heq, if_false]
      obtain ⟨hchain, hlast⟩ := hinv
      cases hc : b.commits with
      | nil =>
        constructor
        · exact List.chain'_singleton _
        · intro oldest ho
          simp only [List.getLast?_singleton, Option.mem_def,
            Option.some.injEq] at ho
          subst ho
          have : (shadowTip b).2 = b.baseTreeHash := by
            unfold shadowTip
            rw [hc]
          simpa [this] using heq
      | cons c cs =>
        rw [hc] at hchain hlast
        constructor
        · rw [List.chain'_cons]
          refine ⟨?_, hchain⟩
          have : (shadowTip b).2 = c.treeHash := by
            unfold shadowTip
            rw [hc]
          simpa [this] using heq
        · intro oldest ho
          rw [List.getLast?_cons_cons] at ho
          exact hlast oldest ho

/-- Witness for C3: on a branch with base tree 10 a write of tree 10 is
skipped and a write of tree 20 preserves the distinct-trees invariant. -/
theorem writeTemporary_dedup_witness :
    WriteTemporary ⟨0, 10, []⟩ 10 5 = (⟨0, 10, []⟩, ⟨0, true⟩) ∧
    SuccessiveTreesDistinct (WriteTemporary ⟨0, 10, []⟩ 20 5).1 :=
  ⟨(writeTemporary_dedup ⟨0, 10, []⟩ 10 5).1 rfl,
   (writeTemporary_dedup ⟨0, 10, []⟩ 20 5).2.2
     (by simp [SuccessiveTreesDistinct])⟩

theorem isDirectChildOf_archiveKey (P : String) (n : Nat) (k : String) :
    isDirectChildOf P (archiveKey P n k) = false := by
  unfold isDirectChildOf archiveKey
  have hdrop :
      (P.data ++ ((Nat.repr n).data ++
          '/' :: k.data.drop P.data.length)).drop P.data.length =
        (Nat.repr n).data ++ '/' :: k.data.drop P.data.length :=
    List.drop_left _ _
  simp only [hdrop]
  have hcont :
      ((Nat.repr n).data ++
          '/' :: k.data.drop P.data.length).contains '/' = true := by
    simp [List.contains]
  simp [hcont]

/-- C7: archival before a rewrite of an existing checkpoint id moves
every entry sitting directly at the sharded base path — the transcript
chunk family `full.jsonl`, `full.jsonl.001`, … included — into the numeric
subdirectory named by the existing session count, removes each from its
base-path location (none remains a direct child of the base path), and
touches no entry outside the base path. -/
theorem archiveExistingSession_moves (P : String) (n : Nat)
    (entries : List (String × Nat)) :
    (∀ e ∈ entries, isDirectChildOf P e.1 = true →
      (archiveKey P n e.1, e.2) ∈ archiveExistingSession P n entries) ∧
    (∀ e ∈ entries, isDirectChildOf P e.1 = false →
      e ∈ archiveExistingSession P n entries) ∧
    (∀ e ∈ archiveExistingSession P n entries,
      isDirectChildOf P e.1 = false) ∧
    (∀ e ∈ archiveExistingSession P n entries,
      e ∈ entries ∨ ∃ k, (k, e.2) ∈ entries ∧
        isDirectChildOf P k = true ∧ e.1 = archiveKey P n k) := by
  refine ⟨fun e he hc => ?_, fun e he hc => ?_, fun e he => ?_,
    fun e he => ?_⟩
  · have hm := List.mem_map_of_mem
      (fun e : String × Nat =>
        if isDirectChildOf P e.1 then (archiveKey P n e.1, e.2) else e) he
    simpa [archiveExistingSession, hc] using hm
  · have hm := List.mem_map_of_mem
      (fun e : String × Nat =>
        if isDirectChildOf P e.1 then (archiveKey P n e.1, e.2) else e) he
    simpa [archiveExistingSession, hc] using hm
  · obtain ⟨a, _, hfa⟩ := List.mem_map.mp he
    by_cases hc : isDirectChildOf P a.1 = true
    · rw [if_pos hc] at hfa
      rw [← hfa]
      exact isDirectChildOf_archiveKey P n a.1
    · rw [if_neg hc] at hfa
      rw [← hfa]
      exact Bool.eq_false_iff.mpr hc
  · obtain ⟨a, ha, hfa⟩ := List.mem_map.mp he
    by_cases hc : isDirectChildOf P a.1 = true
    · rw [if_pos hc] at hfa
      refine Or.inr ⟨a.1, ?_, hc, by rw [← hfa]⟩
      have : (a.1, e.2) = a := by
        rw [← hfa]
      rwa [this]
    · rw [if_neg hc] at hfa
      exact Or.inl (hfa ▸ ha)

/-- Witness for C7: in the chunked-transcript fixture the chunk
`full.jsonl.001` moves into the `1/` subdirectory and the entry outside
the base path stays where it was. -/
theorem archiveExistingSession_moves_witness :
    (archiveKey archiveBasePath 1 "a1/b2c3d4e5f6/full.jsonl.001", 3) ∈
      archiveExistingSession archiveBasePath 1 archiveEntriesFixture ∧
    ("zz/other0000/metadata.json", 8) ∈
      archiveExistingSession archiveBasePath 1 archiveEntriesFixture :=
  ⟨(archiveExistingSession_moves archiveBasePath 1 archiveEntriesFixture).1
      ("a1/b2c3d4e5f6/full.jsonl.001", 3) (by decide) (by decide),
   (archiveExistingSession_moves archiveBasePath 1
      archiveEntriesFixture).2.1 ("zz/other0000/metadata.json", 8)
      (by decide) (by decide)⟩

theorem effectiveAgents_ne_nil (m : CommittedMetadata) :
    effectiveAgents m ≠ [] := by
  unfold effectiveAgents
  split
  · simp
  · assumption

theorem dedupAppend_headD (l : List String) (a d : String) (h : l ≠ []) :
    (dedupAppend l a).headD d = l.headD d := by
  unfold dedupAppend
  split
  · rfl
  · cases l with
    | nil => exact absurd rfl h
    | cons x xs => rfl

/-- C8: the first `WriteCommitted` of a checkpoint id records
`session_count = 1` with the `agents[]` field omitted; every later write
of the same id bumps `session_count` by one, appends the writing agent to
the agent list only when absent (first-insertion order preserved), and
keeps `agent` equal to the head of that list — the first session's agent,
not the latest writer's. -/
theorem buildCommittedMetadata_spec (m : CommittedMetadata) (a : String) :
    buildCommittedMetadata none a =
      { agent := a, agents := [], sessionCount := 1 } ∧
    (buildCommittedMetadata (some m) a).sessionCount =
      m.sessionCount + 1 ∧
    (a ∈ effectiveAgents m →
      (buildCommittedMetadata (some m) a).agents = effectiveAgents m) ∧
    (a ∉ effectiveAgents m →
      (buildCommittedMetadata (some m) a).agents =
        effectiveAgents m ++ [a]) ∧
    (buildCommittedMetadata (some m) a).agent =
      (effectiveAgents m).headD a ∧
    (m.agents = [] → (buildCommittedMetadata (some m) a).agent =
      m.agent) := by
  refine ⟨rfl, rfl, fun hmem => ?_, fun hmem => ?_, ?_, fun hnil => ?_⟩
  · show dedupAppend (effectiveAgents m) a = effectiveAgents m
    unfold dedupAppend
    exact if_pos hmem
  · show dedupAppend (effectiveAgents m) a = effectiveAgents m ++ [a]
    unfold dedupAppend
    exact if_neg hmem
  · show (dedupAppend (effectiveAgents m) a).headD a =
      (effectiveAgents m).headD a
    exact dedupAppend_headD _ a a (effectiveAgents_ne_nil m)
  · show (dedupAppend (effectiveAgents m) a).headD a = m.agent
    rw [dedupAppend_headD _ a a (effectiveAgents_ne_nil m)]
    unfold effectiveAgents
    rw [if_pos hnil]
    rfl

/-- Witness for C8: a first Gemini write, a merge by Claude appending to
the agent list, and a merge by the same agent leaving the list
deduplicated. -/
theorem buildCommittedMetadata_spec_witness :
    buildCommittedMetadata none "Gemini CLI" =
      { agent := "Gemini CLI", agents := [], sessionCount := 1 } ∧
    (buildCommittedMetadata
        (some { agent := "Gemini CLI", agents := [], sessionCount := 1 })
        "Claude Code").agents =
      effectiveAgents
          { agent := "Gemini CLI", agents := [], sessionCount := 1 } ++
        ["Claude Code"] ∧
    (buildCommittedMetadata
        (some { agent := "Claude Code", agents := [], sessionCount := 1 })
        "Claude Code").agents =
      effectiveAgents
        { agent := "Claude Code", agents := [], sessionCount := 1 } :=
  ⟨(buildCommittedMetadata_spec
      { agent := "Gemini CLI", agents := [], sessionCount := 1 }
      "Gemini CLI").1,
   (buildCommittedMetadata_spec
      { agent := "Gemini CLI", agents := [], sessionCount := 1 }
      "Claude Code").2.2.2.1 (by decide),
   (buildCommittedMetadata_spec
      { agent := "Claude Code", agents := [], sessionCount := 1 }
      "Claude Code").2.2.1 (by decide)⟩

/-- C9: when the concurrent-session gate blocks, the response shape
follows the current agent — Claude gets the `stopReason` variant, Gemini
the `decision/reason` variant — while the resume command inside the reason
is chosen by the conflicting session's `agent_type`: a conflicting Claude
Code session embeds `claude -r <normalized id>`, a conflicting Gemini CLI
session embeds `gemini --resume <normalized id>`, whatever the current
agent is. -/
theorem concurrentGate_resume (self c : SessionState)
    (states : List SessionState) (head : String)
    (hw : self.concurrentWarningShown = false)
    (hf : states.find? (isConflicting self head) = some c) :
    concurrentSessionGate .claude self states head =
      .claudeBlock (blockReason c) ∧
    concurrentSessionGate .gemini self states head =
      .geminiBlock (blockReason c) ∧
    (c.agentType = "Claude Code" →
      ("claude -r " ++ ModelSessionID c.sessionID).data <:+:
        (blockReason c).data) ∧
    (c.agentType = "Gemini CLI" →
      ("gemini --resume " ++ ModelSessionID c.sessionID).data <:+:
        (blockReason c).data) := by
  refine ⟨?_, ?_, fun hA => ?_, fun hA => ?_⟩
  · simp [concurrentSessionGate, hw, hf]
  · simp [concurrentSessionGate, hw, hf]
  · have hr : blockReason c =
        blockIntro ++ ("claude -r " ++ ModelSessionID c.sessionID) := by
      simp [blockReason, resumeCommand, hA]
    refine ⟨blockIntro.data, [], ?_⟩
    rw [hr]
    simp [String.data_append]
  · have hr : blockReason c =
        blockIntro ++ ("close Gemini CLI, then run: " ++
          ("gemini --resume " ++ ModelSessionID c.sessionID)) := by
      simp [blockReason, resumeCommand, hA]
    refine ⟨blockIntro.data ++
      ("close Gemini CLI, then run: " : String).data, [], ?_⟩
    rw [hr]
    simp [String.data_append]

/-- Witness for C9: a conflicting Claude Code session blocks the current
Gemini session with the Gemini response shape, and the reason embeds the
Claude resume command over the normalized conflicting session id. -/
theorem concurrentGate_resume_witness :
    concurrentSessionGate .gemini gateSelfFixture [gateConflictFixture]
      headFixture = .geminiBlock (blockReason gateConflictFixture) ∧
    ("claude -r " ++
        ModelSessionID gateConflictFixture.sessionID).data <:+:
      (blockReason gateConflictFixture).data :=
  ⟨(concurrentGate_resume gateSelfFixture gateConflictFixture
      [gateConflictFixture] headFixture rfl (by decide)).2.1,
   (concurrentGate_resume gateSelfFixture gateConflictFixture
      [gateConflictFixture] headFixture rfl (by decide)).2.2.1 rfl⟩

end Entire
